import Mathlib

/-
Verification of the topology core of the power-system-simulation repository
(`power_system_simulation/graph_processing.py` and the validation layer of
`power_system_simulation/n_1_calculation.py`).

The embedding follows the Python source line by line.  Ids are modelled as
`Int`, the numpy input arrays as `List`s, and a `networkx.Graph` as a list of
canonically-oriented undirected edges without duplicates (which is exactly the
edge-set semantics `nx.Graph.add_edge` provides: parallel edges collapse,
orientation is irrelevant, self loops are kept).  Exceptions are modelled by
`Except` with one constructor per exception class; the undocumented
`networkx.NetworkXPointlessConcept` raised by `nx.is_connected` on a graph
with no nodes gets its own constructor, distinct from the six documented
validation errors.

The query methods `find_downstream_vertices` and `find_alternative_edges` are
unimplemented stubs (`pass`) in the source; they are modelled from the spec
(sections 4.2 and 4.3), as marked in their doc comments.
-/

set_option autoImplicit false

/-- The five constructor arguments of `GraphProcessor.__init__`
(`vertex_ids`, `edge_ids`, `edge_vertex_id_pairs`, `edge_enabled`,
`source_vertex_id`). -/
structure GPInput where
  vertex_ids : List Int
  edge_ids : List Int
  edge_vertex_id_pairs : List (Int × Int)
  edge_enabled : List Bool
  source_vertex_id : Int
  deriving DecidableEq

/-- The exception classes that can escape `GraphProcessor.__init__`.
`idNotFound` carries the offending id embedded in the exception message when
the message reports one (the endpoint check does, the source check does not).
`networkXPointlessConcept` models the library exception raised by
`nx.is_connected` on a graph with no nodes; it is not one of the six
documented validation error classes. -/
inductive GPError where
  | idNotUnique
  | inputLengthDoesNotMatch
  | idNotFound (offending : Option Int)
  | graphNotFullyConnected
  | graphCycle
  | networkXPointlessConcept
  deriving DecidableEq

/-- The state a successfully constructed `GraphProcessor` stores
(`self.vertex_ids`, ..., `self.source_vertex_id`). -/
structure GraphProcessor where
  vertex_ids : List Int
  edge_ids : List Int
  edge_vertex_id_pairs : List (Int × Int)
  edge_enabled : List Bool
  source_vertex_id : Int
  deriving DecidableEq

/-- Canonical orientation of an undirected edge, so that `(u, v)` and
`(v, u)` denote the same `networkx` edge. -/
def nxCanon (p : Int × Int) : Int × Int :=
  if p.1 ≤ p.2 then p else (p.2, p.1)

/-- Model of `networkx.Graph.add_edge`: adding an edge that is already
present (in either orientation) is a no-op. -/
def nxAddEdge (es : List (Int × Int)) (p : Int × Int) : List (Int × Int) :=
  if es.contains (nxCanon p) then es else es ++ [nxCanon p]

/-- The node set of a `networkx` graph built purely from `add_edge` calls:
all endpoints of its edges. -/
def nxNodes (es : List (Int × Int)) : List Int :=
  (es.foldl (fun acc p => acc ++ [p.1, p.2]) []).dedup

/-- Neighbours of `v` in an undirected edge list, in edge-list order. -/
def adjList (es : List (Int × Int)) (v : Int) : List Int :=
  es.foldr (fun p acc =>
    if p.1 = v then p.2 :: acc
    else if p.2 = v then p.1 :: acc
    else acc) []

/-- Breadth-first search worker.  `fuel` bounds the number of queue pops,
`queue` is the pending frontier, `visited` is the list of discovered
vertices in discovery order (every queued vertex is already in `visited`,
so each vertex is enqueued at most once and the fuel in `bfs` suffices). -/
def bfsAux (es : List (Int × Int)) : Nat → List Int → List Int → List Int
  | 0, _, visited => visited
  | _ + 1, [], visited => visited
  | fuel + 1, q :: qs, visited =>
    let ns := ((adjList es q).filter (fun w => !(visited.contains w))).dedup
    bfsAux es fuel (qs ++ ns) (visited ++ ns)

/-- Vertices reachable from `start` in the undirected edge list `es`, in
breadth-first discovery order (`start` itself first). -/
def bfs (es : List (Int × Int)) (start : Int) : List Int :=
  bfsAux es (2 * es.length + 2) [start] [start]

/-- Model of `nx.is_connected` on a graph with at least one node: every node
is reachable from the first one. -/
def isConnB (es : List (Int × Int)) : Bool :=
  match nxNodes es with
  | [] => true
  | n :: _ => (nxNodes es).all (fun v => (bfs es n).contains v)

/-- Union-find style cycle detection on a simple undirected edge list, the
behaviour of `nx.find_cycle` succeeding: components are kept as disjoint
lists of vertices; an edge inside one component (or a self loop) closes a
cycle. -/
def detectCycleAux : List (Int × Int) → List (List Int) → Bool
  | [], _ => false
  | (a, b) :: es, comps =>
    if a = b then true
    else
      match comps.find? (fun c => c.contains a), comps.find? (fun c => c.contains b) with
      | some ca, some cb =>
        if ca = cb then true
        else detectCycleAux es ((ca ++ cb) :: comps.filter (fun c => c ≠ ca ∧ c ≠ cb))
      | some ca, none => detectCycleAux es ((b :: ca) :: comps.filter (fun c => c ≠ ca))
      | none, some cb => detectCycleAux es ((a :: cb) :: comps.filter (fun c => c ≠ cb))
      | none, none => detectCycleAux es ([a, b] :: comps)

/-- Whether the simple undirected edge list contains a cycle. -/
def detectCycleB (es : List (Int × Int)) : Bool :=
  detectCycleAux es []

/-- Source line 79: `any(np.isin(vertex_ids, edge_ids))` — some vertex id is
also an edge id.  The per-element loop at source lines 93-95 tests the same
condition. -/
def rule1 (inp : GPInput) : Bool :=
  inp.vertex_ids.any (fun v => inp.edge_ids.contains v)

/-- Source line 82: `len(vertex_ids) != len(set(vertex_ids))` — duplicate
vertex ids. -/
def rule2 (inp : GPInput) : Bool :=
  inp.vertex_ids.dedup.length != inp.vertex_ids.length

/-- Source lines 85 and 89: duplicate edge ids. -/
def rule3 (inp : GPInput) : Bool :=
  inp.edge_ids.dedup.length != inp.edge_ids.length

/-- Source line 97: `len(edge_ids) != len(edge_vertex_id_pairs)`. -/
def rule4 (inp : GPInput) : Bool :=
  inp.edge_ids.length != inp.edge_vertex_id_pairs.length

/-- Source lines 100-105: the first endpoint value that is not a vertex id,
scanning the pairs in order and each pair first component first — the id the
raised `IDNotFoundError` message reports. -/
def findMissingEndpoint (vs : List Int) : List (Int × Int) → Option Int
  | [] => none
  | p :: ps =>
    if !(vs.contains p.1) then some p.1
    else if !(vs.contains p.2) then some p.2
    else findMissingEndpoint vs ps

/-- Some edge endpoint is not a valid vertex id. -/
def rule5 (inp : GPInput) : Bool :=
  (findMissingEndpoint inp.vertex_ids inp.edge_vertex_id_pairs).isSome

/-- Source line 107: `len(edge_enabled) != len(edge_ids)`. -/
def rule6 (inp : GPInput) : Bool :=
  inp.edge_enabled.length != inp.edge_ids.length

/-- Source line 110: `source_vertex_id not in vertex_ids`. -/
def rule7 (inp : GPInput) : Bool :=
  !(inp.vertex_ids.contains inp.source_vertex_id)

/-- The enabled edge endpoint pairs, in input order (the rows the
construction loop at source lines 116-121 feeds to `self.graph_cycles`). -/
def activePairs (inp : GPInput) : List (Int × Int) :=
  (inp.edge_vertex_id_pairs.zip inp.edge_enabled).filterMap
    (fun r => if r.2 then some r.1 else none)

/-- `self.graph_connection`: every endpoint pair added via `add_edge`. -/
def connGraph (inp : GPInput) : List (Int × Int) :=
  inp.edge_vertex_id_pairs.foldl nxAddEdge []

/-- `self.graph_cycles`: only the enabled endpoint pairs. -/
def cyclesGraph (inp : GPInput) : List (Int × Int) :=
  (activePairs inp).foldl nxAddEdge []

/-- `nx.is_connected(self.graph_connection)` raises
`NetworkXPointlessConcept` when the graph has no nodes, which happens exactly
when no `add_edge` call was made. -/
def ruleNullGraph (inp : GPInput) : Bool :=
  (nxNodes (connGraph inp)).isEmpty

/-- Source line 123: `not nx.is_connected(self.graph_connection)`.  Note the
nodes of `self.graph_connection` are only the vertices incident to at least
one edge; vertices of `vertex_ids` that no edge touches are absent. -/
def rule8 (inp : GPInput) : Bool :=
  !(isConnB (connGraph inp))

/-- Source lines 126-131: `nx.find_cycle(self.graph_cycles)` succeeding.
`self.graph_cycles` is a simple `nx.Graph`, so parallel enabled edges have
been collapsed before this check. -/
def rule9 (inp : GPInput) : Bool :=
  detectCycleB (cyclesGraph inp)

/-- `GraphProcessor.__init__` (source lines 43-133): the guard chain in
source order, including the duplicated edge-id-uniqueness check (line 89)
and the duplicated vertex/edge collision loop (lines 93-95). -/
def GraphProcessor.init (inp : GPInput) : Except GPError GraphProcessor :=
  if rule1 inp then .error .idNotUnique
  else if rule2 inp then .error .idNotUnique
  else if rule3 inp then .error .idNotUnique
  else if rule3 inp then .error .idNotUnique
  else if rule1 inp then .error .idNotUnique
  else if rule4 inp then .error .inputLengthDoesNotMatch
  else if rule5 inp then
    .error (.idNotFound (findMissingEndpoint inp.vertex_ids inp.edge_vertex_id_pairs))
  else if rule6 inp then .error .inputLengthDoesNotMatch
  else if rule7 inp then .error (.idNotFound none)
  else if ruleNullGraph inp then .error .networkXPointlessConcept
  else if rule8 inp then .error .graphNotFullyConnected
  else if rule9 inp then .error .graphCycle
  else .ok ⟨inp.vertex_ids, inp.edge_ids, inp.edge_vertex_id_pairs,
            inp.edge_enabled, inp.source_vertex_id⟩

/-- Insertion of `x` into an ascending list. -/
def insertSorted (x : Int) : List Int → List Int
  | [] => [x]
  | y :: ys => if x ≤ y then x :: y :: ys else y :: insertSorted x ys

/-- Ascending insertion sort. -/
def sortAsc (l : List Int) : List Int :=
  l.foldr insertSorted []

/-- The edge table of the processor: for each edge, its id, its endpoint
pair and its enabled flag, in input order. -/
def GraphProcessor.rows (g : GraphProcessor) : List (Int × (Int × Int) × Bool) :=
  g.edge_ids.zip (g.edge_vertex_id_pairs.zip g.edge_enabled)

/-- The enabled edges other than `eid`, as endpoint pairs. -/
def GraphProcessor.activeEdgesExcept (g : GraphProcessor) (eid : Int) :
    List (Int × Int) :=
  g.rows.filterMap (fun r => if r.1 != eid && r.2.2 then some r.2.1 else none)

/-- Modelled from the spec (section 4.2, the traversal step shared by both
queries; the source bodies of `find_downstream_vertices` and
`find_alternative_edges` are `pass` stubs): traverse the active view without
the edge `eid` (whose endpoints are `u` and `v`) from the source; the
endpoint not reached is the far side, and the downstream vertices are those
reachable from it, in breadth-first visit order.  If neither endpoint is cut
off, removal disconnects nothing and the downstream set is empty. -/
def GraphProcessor.downstreamOf (g : GraphProcessor) (eid : Int) (u v : Int) :
    List Int :=
  let es := g.activeEdgesExcept eid
  let reached := bfs es g.source_vertex_id
  if !(reached.contains u) then bfs es u
  else if !(reached.contains v) then bfs es v
  else []

/-- The errors the query methods raise.  `idNotFound` carries the queried
id. -/
inductive QueryError where
  | idNotFound (id : Int)
  | edgeAlreadyDisabled
  deriving DecidableEq

/-- Modelled from the spec (section 4.2; the source body at
`graph_processing.py` lines 159-160 is a `pass` stub): an unknown edge id
raises `IDNotFoundError`; a disabled edge returns the empty list; an enabled
edge returns the vertices downstream of it with respect to the source, the
far endpoint first, in traversal order. -/
def GraphProcessor.find_downstream_vertices (g : GraphProcessor)
    (edge_id : Int) : Except QueryError (List Int) :=
  match g.rows.find? (fun r => r.1 == edge_id) with
  | none => .error (.idNotFound edge_id)
  | some (_, (u, v), enab) =>
    if !enab then .ok []
    else .ok (g.downstreamOf edge_id u v)

/-- Modelled from the spec (section 4.3; the source body at
`graph_processing.py` lines 197-198 is a `pass` stub): an unknown edge id
raises `IDNotFoundError`; an already disabled edge raises
`EdgeAlreadyDisabledError`; otherwise the result is every currently disabled
edge with exactly one endpoint in the partition downstream of the edge being
opened, sorted ascending by edge id. -/
def GraphProcessor.find_alternative_edges (g : GraphProcessor)
    (disabled_edge_id : Int) : Except QueryError (List Int) :=
  match g.rows.find? (fun r => r.1 == disabled_edge_id) with
  | none => .error (.idNotFound disabled_edge_id)
  | some (_, (u, v), enab) =>
    if !enab then .error .edgeAlreadyDisabled
    else
      let q := g.downstreamOf disabled_edge_id u v
      .ok (sortAsc (g.rows.filterMap (fun r =>
        if !r.2.2 && (q.contains r.2.1.1 != q.contains r.2.1.2)
        then some r.1 else none)))

/-- The errors of the `n_1_calculation` wrapper: its two own validation
error classes (`InvalidLineIDError`, `LineNotConnectedError`), the numpy
index error an out-of-range flag access would raise, and any error
propagated out of the topology core. -/
inductive N1Error where
  | invalidLineID
  | lineNotConnected
  | indexOutOfRange
  | core (e : QueryError)
  deriving DecidableEq

/-- The validation-and-query part of `n_1_calc.n_1_calculation`
(`n_1_calculation.py` lines 36-52): it first checks, with
`np.where(edge_ids == line_id_disconnect)`, that the line id occurs among the
graph's edge ids (else `InvalidLineIDError`), then that the enabled flag at
that first matching index is not `False` (else `LineNotConnectedError`), and
only then queries the core for the alternative edges.  The subsequent
power-flow batch runs and the result table are numerical plumbing outside the
topology core and are not modelled; the value returned here is the
alternative line id list the wrapper iterates over. -/
def n_1_calc.n_1_calculation (g : GraphProcessor) (line_id_disconnect : Int) :
    Except N1Error (List Int) :=
  if !(g.edge_ids.contains line_id_disconnect) then .error .invalidLineID
  else
    match g.edge_enabled[g.edge_ids.findIdx (fun x => x == line_id_disconnect)]? with
    | none => .error .indexOutOfRange
    | some enab =>
      if !enab then .error .lineNotConnected
      else
        match g.find_alternative_edges line_id_disconnect with
        | .ok alts => .ok alts
        | .error e => .error (.core e)

deriving instance DecidableEq for Except

/-- Spec-side predicate (section 3 invariant 7, worded from the spec, to be
compared with the source's check): the connectivity view — all edges,
enabled or not — is a single connected component spanning every vertex of
the input vertex set: every vertex reaches every vertex. -/
def ConnViewSingleComponent (inp : GPInput) : Prop :=
  ∀ u ∈ inp.vertex_ids, ∀ v ∈ inp.vertex_ids,
    (bfs inp.edge_vertex_id_pairs u).contains v

instance (inp : GPInput) : Decidable (ConnViewSingleComponent inp) := by
  unfold ConnViewSingleComponent; infer_instance

/-- Checks that `eidx` (a list of indices into `pairs`) together with the
vertex list `vs` forms a cycle of the undirected multigraph whose edges are
the entries of `pairs` taken as distinct edges: the index list is nonempty
and duplicate-free, the vertices are distinct and as many as the edges, and
the j-th chosen edge joins `vs[j]` to `vs[j+1 mod length]` in either
orientation.  A self loop (one edge, one vertex) and a pair of distinct
parallel edges (two edges, two vertices) are cycles of the multigraph. -/
def IsMultiCycleB (pairs : List (Int × Int)) (eidx : List Nat)
    (vs : List Int) : Bool :=
  !eidx.isEmpty && (eidx.dedup.length == eidx.length)
    && (vs.dedup.length == vs.length) && (vs.length == eidx.length)
    && (List.range eidx.length).all (fun j =>
      match eidx[j]?, vs[j]?, vs[(j + 1) % vs.length]? with
      | some i, some a, some b =>
        match pairs[i]? with
        | some p => p == (a, b) || p == (b, a)
        | none => false
      | _, _, _ => false)

/-- Spec-side predicate: the undirected multigraph given by `pairs` (each
entry a distinct edge) contains a cycle. -/
def HasCycleMulti (pairs : List (Int × Int)) : Prop :=
  ∃ eidx vs, IsMultiCycleB pairs eidx vs = true

/-- A vertex of the input that no edge endpoint pair touches. -/
def IsolatedVertex (inp : GPInput) (w : Int) : Prop :=
  w ∈ inp.vertex_ids ∧ ∀ p ∈ inp.edge_vertex_id_pairs, p.1 ≠ w ∧ p.2 ≠ w

instance (inp : GPInput) (w : Int) : Decidable (IsolatedVertex inp w) := by
  unfold IsolatedVertex; infer_instance

/-- The worked example of the original problem statement (docstring of
`find_alternative_edges`): source v0; enabled edges e1(v0-v2), e3(v0-v4),
e5(v0-v6), e9(v2-v10); disabled edges e7(v2-v4), e8(v4-v6). -/
def exWorked : GPInput :=
  ⟨[0, 2, 4, 6, 10], [1, 3, 5, 7, 8, 9],
   [(0, 2), (0, 4), (0, 6), (2, 4), (4, 6), (2, 10)],
   [true, true, true, false, false, true], 0⟩

/-- The processor state `exWorked` constructs. -/
def exWorkedG : GraphProcessor :=
  ⟨[0, 2, 4, 6, 10], [1, 3, 5, 7, 8, 9],
   [(0, 2), (0, 4), (0, 6), (2, 4), (4, 6), (2, 10)],
   [true, true, true, false, false, true], 0⟩

/-- The chain example of the `find_downstream_vertices` docstring:
vertex 0 (source) --edge 1-- vertex 2 --edge 3-- vertex 4, all enabled. -/
def exChain : GPInput :=
  ⟨[0, 2, 4], [1, 3], [(0, 2), (2, 4)], [true, true], 0⟩

/-- The processor state `exChain` constructs. -/
def exChainG : GraphProcessor :=
  ⟨[0, 2, 4], [1, 3], [(0, 2), (2, 4)], [true, true], 0⟩


/-- An input whose vertex 2 is incident to no edge: vertices 0, 1, 2, one
enabled edge 10 between 0 and 1, source 0. -/
def cxIsolated : GPInput := ⟨[0, 1, 2], [10], [(0, 1)], [true], 0⟩

/-- An input with two distinct enabled parallel edges 10 and 11 between
vertices 1 and 2 — a two-edge cycle of the multigraph. -/
def cxParallel : GPInput := ⟨[1, 2], [10, 11], [(1, 2), (1, 2)], [true, true], 1⟩

/-- An input violating both spec rule 8 (vertex 3 is incident to no edge, so
the connectivity view does not span it) and spec rule 9 (the three enabled
edges 10, 11, 12 form a triangle on vertices 0, 1, 2). -/
def cxOrder : GPInput :=
  ⟨[0, 1, 2, 3], [10, 11, 12], [(0, 1), (1, 2), (2, 0)], [true, true, true], 0⟩

/-- The trivially connected one-vertex network with an empty edge list. -/
def cxEmpty : GPInput := ⟨[0], [], [], [], 0⟩

/-- An input with a duplicate vertex id and an invalid source id — rules 2
and 7 both violated. -/
def cxDupVertex : GPInput := ⟨[0, 0], [10], [(0, 0)], [true], 5⟩


/-- The guard chain of the constructor, one case per guard: whichever check
is the first to fail determines the raised error, and when every check
passes the processor is built from the five inputs unchanged. -/
theorem initCases (inp : GPInput) :
    (rule1 inp = true → GraphProcessor.init inp = .error .idNotUnique) ∧
    (rule1 inp = false → rule2 inp = true →
      GraphProcessor.init inp = .error .idNotUnique) ∧
    (rule1 inp = false → rule2 inp = false → rule3 inp = true →
      GraphProcessor.init inp = .error .idNotUnique) ∧
    (rule1 inp = false → rule2 inp = false → rule3 inp = false →
      rule4 inp = true →
      GraphProcessor.init inp = .error .inputLengthDoesNotMatch) ∧
    (rule1 inp = false → rule2 inp = false → rule3 inp = false →
      rule4 inp = false → rule5 inp = true →
      GraphProcessor.init inp =
        .error (.idNotFound
          (findMissingEndpoint inp.vertex_ids inp.edge_vertex_id_pairs))) ∧
    (rule1 inp = false → rule2 inp = false → rule3 inp = false →
      rule4 inp = false → rule5 inp = false → rule6 inp = true →
      GraphProcessor.init inp = .error .inputLengthDoesNotMatch) ∧
    (rule1 inp = false → rule2 inp = false → rule3 inp = false →
      rule4 inp = false → rule5 inp = false → rule6 inp = false →
      rule7 inp = true →
      GraphProcessor.init inp = .error (.idNotFound none)) ∧
    (rule1 inp = false → rule2 inp = false → rule3 inp = false →
      rule4 inp = false → rule5 inp = false → rule6 inp = false →
      rule7 inp = false → ruleNullGraph inp = true →
      GraphProcessor.init inp = .error .networkXPointlessConcept) ∧
    (rule1 inp = false → rule2 inp = false → rule3 inp = false →
      rule4 inp = false → rule5 inp = false → rule6 inp = false →
      rule7 inp = false → ruleNullGraph inp = false → rule8 inp = true →
      GraphProcessor.init inp = .error .graphNotFullyConnected) ∧
    (rule1 inp = false → rule2 inp = false → rule3 inp = false →
      rule4 inp = false → rule5 inp = false → rule6 inp = false →
      rule7 inp = false → ruleNullGraph inp = false → rule8 inp = false →
      rule9 inp = true →
      GraphProcessor.init inp = .error .graphCycle) ∧
    (rule1 inp = false → rule2 inp = false → rule3 inp = false →
      rule4 inp = false → rule5 inp = false → rule6 inp = false →
      rule7 inp = false → ruleNullGraph inp = false → rule8 inp = false →
      rule9 inp = false →
      GraphProcessor.init inp =
        .ok ⟨inp.vertex_ids, inp.edge_ids, inp.edge_vertex_id_pairs,
             inp.edge_enabled, inp.source_vertex_id⟩) := by
  refine ⟨?_, ?_, ?_, ?_, ?_, ?_, ?_, ?_, ?_, ?_, ?_⟩ <;>
    intros <;> simp [GraphProcessor.init, *]

/-- Inverting a successful construction: all guards passed and the stored
fields are the inputs. -/
theorem init_ok_inv (inp : GPInput) (g : GraphProcessor)
    (h : GraphProcessor.init inp = .ok g) :
    g.vertex_ids = inp.vertex_ids ∧ g.edge_ids = inp.edge_ids ∧
    g.edge_vertex_id_pairs = inp.edge_vertex_id_pairs ∧
    g.edge_enabled = inp.edge_enabled ∧
    g.source_vertex_id = inp.source_vertex_id ∧
    rule1 inp = false ∧ rule2 inp = false ∧ rule3 inp = false ∧
    rule4 inp = false ∧ rule5 inp = false ∧ rule6 inp = false ∧
    rule7 inp = false ∧ ruleNullGraph inp = false ∧ rule8 inp = false ∧
    rule9 inp = false := by
  cases h1 : rule1 inp with
  | true => rw [(initCases inp).1 h1] at h; exact Except.noConfusion h
  | false =>
  cases h2 : rule2 inp with
  | true => rw [(initCases inp).2.1 h1 h2] at h; exact Except.noConfusion h
  | false =>
  cases h3 : rule3 inp with
  | true => rw [(initCases inp).2.2.1 h1 h2 h3] at h; exact Except.noConfusion h
  | false =>
  cases h4 : rule4 inp with
  | true =>
    rw [(initCases inp).2.2.2.1 h1 h2 h3 h4] at h; exact Except.noConfusion h
  | false =>
  cases h5 : rule5 inp with
  | true =>
    rw [(initCases inp).2.2.2.2.1 h1 h2 h3 h4 h5] at h
    exact Except.noConfusion h
  | false =>
  cases h6 : rule6 inp with
  | true =>
    rw [(initCases inp).2.2.2.2.2.1 h1 h2 h3 h4 h5 h6] at h
    exact Except.noConfusion h
  | false =>
  cases h7 : rule7 inp with
  | true =>
    rw [(initCases inp).2.2.2.2.2.2.1 h1 h2 h3 h4 h5 h6 h7] at h
    exact Except.noConfusion h
  | false =>
  cases hng : ruleNullGraph inp with
  | true =>
    rw [(initCases inp).2.2.2.2.2.2.2.1 h1 h2 h3 h4 h5 h6 h7 hng] at h
    exact Except.noConfusion h
  | false =>
  cases h8 : rule8 inp with
  | true =>
    rw [(initCases inp).2.2.2.2.2.2.2.2.1 h1 h2 h3 h4 h5 h6 h7 hng h8] at h
    exact Except.noConfusion h
  | false =>
  cases h9 : rule9 inp with
  | true =>
    rw [(initCases inp).2.2.2.2.2.2.2.2.2.1 h1 h2 h3 h4 h5 h6 h7 hng h8 h9] at h
    exact Except.noConfusion h
  | false =>
    rw [(initCases inp).2.2.2.2.2.2.2.2.2.2 h1 h2 h3 h4 h5 h6 h7 hng h8 h9] at h
    injection h with h
    subst h
    exact ⟨rfl, rfl, rfl, rfl, rfl, rfl, rfl, rfl, rfl, rfl, rfl, rfl, rfl, rfl, rfl⟩

/-- A list whose deduplication keeps its length has no duplicates. -/
theorem nodup_of_dedup_length (l : List Int)
    (h : (l.dedup.length != l.length) = false) : l.Nodup := by
  have hlen : l.dedup.length = l.length := by simpa using h
  have heq := (List.dedup_sublist l).eq_of_length hlen
  rw [← heq]; exact l.nodup_dedup

/-- The id reported by the endpoint scan is an endpoint of some input pair
and is not a vertex id. -/
theorem findMissingEndpoint_spec (vs : List Int) (ps : List (Int × Int))
    (x : Int) (h : findMissingEndpoint vs ps = some x) :
    x ∉ vs ∧ ∃ p ∈ ps, p.1 = x ∨ p.2 = x := by
  induction ps with
  | nil => simp [findMissingEndpoint] at h
  | cons p ps ih =>
    rw [findMissingEndpoint] at h
    split at h
    · obtain rfl : p.1 = x := by injection h
      refine ⟨by simp_all, p, by simp, Or.inl rfl⟩
    · split at h
      · obtain rfl : p.2 = x := by injection h
        refine ⟨by simp_all, p, by simp, Or.inr rfl⟩
      · obtain ⟨hx, q, hq, hor⟩ := ih h
        exact ⟨hx, q, List.mem_cons_of_mem _ hq, hor⟩

/-- Searching a zipped edge table for an id that is absent finds nothing. -/
theorem find_zip_none {β : Type} (a : List Int) (b : List β) (eid : Int)
    (h : eid ∉ a) :
    (a.zip b).find? (fun r => r.1 == eid) = none := by
  induction a generalizing b with
  | nil => simp
  | cons x xs ih =>
    cases b with
    | nil => simp
    | cons y ys =>
      rw [List.zip_cons_cons, List.find?_cons_of_neg, ih ys]
      · intro hm; exact h (List.mem_cons_of_mem _ hm)
      · simp only [beq_iff_eq]
        intro hxe; exact h (hxe ▸ List.mem_cons_self x xs)

/-- Searching a zipped edge table of a duplicate-free id column finds the
row at the id's index. -/
theorem find_zip_at {β : Type} (a : List Int) (b : List β) (i : Nat)
    (eid : Int) (bi : β) (hnd : a.Nodup) (ha : a[i]? = some eid)
    (hb : b[i]? = some bi) :
    (a.zip b).find? (fun r => r.1 == eid) = some (eid, bi) := by
  induction a generalizing b i with
  | nil => simp at ha
  | cons x xs ih =>
    cases b with
    | nil => simp at hb
    | cons y ys =>
      cases i with
      | zero =>
        obtain rfl : x = eid := by simpa using ha
        obtain rfl : y = bi := by simpa using hb
        rw [List.zip_cons_cons, List.find?_cons_of_pos]
        simp
      | succ n =>
        have hmem : eid ∈ xs := List.getElem?_mem (by simpa using ha)
        have hx : x ≠ eid := fun hxe => (List.nodup_cons.mp hnd).1 (hxe ▸ hmem)
        rw [List.zip_cons_cons, List.find?_cons_of_neg]
        · exact ih ys n (List.nodup_cons.mp hnd).2 (by simpa using ha)
            (by simpa using hb)
        · simpa using hx

/-- `findIdx` of an equality test on a duplicate-free list returns the
index where the element sits. -/
theorem findIdx_of_getElem (a : List Int) (i : Nat) (x : Int)
    (hnd : a.Nodup) (ha : a[i]? = some x) :
    a.findIdx (fun y => y == x) = i := by
  induction a generalizing i with
  | nil => simp at ha
  | cons z zs ih =>
    cases i with
    | zero =>
      obtain rfl : z = x := by simpa using ha
      rw [List.findIdx_cons]
      simp
    | succ n =>
      have hmem : x ∈ zs := List.getElem?_mem (by simpa using ha)
      have hz : (z == x) = false := by
        simp only [beq_eq_false_iff_ne, ne_eq]
        intro hzx; exact (List.nodup_cons.mp hnd).1 (hzx ▸ hmem)
      rw [List.findIdx_cons, hz]
      simp only [cond_false]
      rw [ih n (List.nodup_cons.mp hnd).2 (by simpa using ha)]

/-- C1: for the worked example network (source v0; enabled edges e1(v0-v2),
e3(v0-v4), e5(v0-v6), e9(v2-v10); disabled edges e7(v2-v4), e8(v4-v6)),
`find_alternative_edges` returns [e7] for e1, [e7, e8] for e3, [e8] for e5,
and the empty sequence for e9, each result ascending by edge id. -/
theorem find_alternative_edges_worked_example :
    GraphProcessor.init exWorked = .ok exWorkedG ∧
    exWorkedG.find_alternative_edges 1 = .ok [7] ∧
    exWorkedG.find_alternative_edges 3 = .ok [7, 8] ∧
    exWorkedG.find_alternative_edges 5 = .ok [8] ∧
    exWorkedG.find_alternative_edges 9 = .ok [] := by
  exact ⟨by decide, by decide, by decide, by decide, by decide⟩

/-- C7: for the chain v0(source) -e1- v2 -e3- v4 with both edges enabled,
`find_downstream_vertices` returns exactly [v2, v4] for e1 and [v4] for
e3. -/
theorem find_downstream_vertices_chain_example :
    GraphProcessor.init exChain = .ok exChainG ∧
    exChainG.find_downstream_vertices 1 = .ok [2, 4] ∧
    exChainG.find_downstream_vertices 3 = .ok [4] := by
  exact ⟨by decide, by decide, by decide⟩

/-- C3: the input `cxIsolated` passes validation rules 1-7, contains vertex
2 incident to no edge — so its connectivity view is not a single connected
component spanning every vertex — and yet construction succeeds instead of
raising `GraphNotFullyConnectedError`: the source builds
`self.graph_connection` only from edge endpoint pairs, so a vertex incident
to no edge is absent from the graph whose connectivity is checked. -/
theorem init_accepts_isolated_vertex :
    rule1 cxIsolated = false ∧ rule2 cxIsolated = false ∧
    rule3 cxIsolated = false ∧ rule4 cxIsolated = false ∧
    rule5 cxIsolated = false ∧ rule6 cxIsolated = false ∧
    rule7 cxIsolated = false ∧
    IsolatedVertex cxIsolated 2 ∧ ¬ ConnViewSingleComponent cxIsolated ∧
    GraphProcessor.init cxIsolated = .ok ⟨[0, 1, 2], [10], [(0, 1)], [true], 0⟩ := by
  decide

/-- C4 counterexample: the input `cxParallel` passes every earlier
validation rule (rules 1-7 and the connectivity check), its active view —
two distinct enabled parallel edges between vertices 1 and 2 — contains a
cycle of the multigraph, and yet construction does not raise
`GraphCycleError`, because `nx.Graph` collapses the parallel edges before
`nx.find_cycle` runs. -/
theorem parallel_enabled_cycle_not_rejected :
    rule1 cxParallel = false ∧ rule2 cxParallel = false ∧
    rule3 cxParallel = false ∧ rule4 cxParallel = false ∧
    rule5 cxParallel = false ∧ rule6 cxParallel = false ∧
    rule7 cxParallel = false ∧ ruleNullGraph cxParallel = false ∧
    rule8 cxParallel = false ∧
    HasCycleMulti (activePairs cxParallel) ∧
    GraphProcessor.init cxParallel ≠ .error .graphCycle := by
  exact ⟨by decide, by decide, by decide, by decide, by decide, by decide,
    by decide, by decide, by decide, ⟨[0, 1], [1, 2], by decide⟩, by decide⟩

/-- C4 as amended: given that rules 1-7 and the connectivity check pass
(and the edge list builds a nonempty graph), construction raises
`GraphCycleError` exactly when the simple graph obtained by collapsing the
enabled edges (`self.graph_cycles`) contains a cycle; cycles through a
disabled edge, and multigraph cycles formed only by parallel enabled edges,
are not detected. -/
theorem graph_cycle_error_iff_collapsed_cycle (inp : GPInput)
    (h1 : rule1 inp = false) (h2 : rule2 inp = false) (h3 : rule3 inp = false)
    (h4 : rule4 inp = false) (h5 : rule5 inp = false) (h6 : rule6 inp = false)
    (h7 : rule7 inp = false) (hng : ruleNullGraph inp = false)
    (h8 : rule8 inp = false) :
    GraphProcessor.init inp = .error .graphCycle ↔ rule9 inp = true := by
  constructor
  · intro h
    cases h9 : rule9 inp with
    | true => rfl
    | false =>
      rw [(initCases inp).2.2.2.2.2.2.2.2.2.2 h1 h2 h3 h4 h5 h6 h7 hng h8 h9] at h
      exact Except.noConfusion h
  · intro h9
    exact (initCases inp).2.2.2.2.2.2.2.2.2.1 h1 h2 h3 h4 h5 h6 h7 hng h8 h9

/-- Witness for the amended C4 at the concrete input `cxOrder`, whose
enabled edges form a triangle. -/
theorem graph_cycle_error_iff_collapsed_cycle_witness :
    GraphProcessor.init cxOrder = .error .graphCycle :=
  (graph_cycle_error_iff_collapsed_cycle cxOrder (by decide) (by decide)
    (by decide) (by decide) (by decide) (by decide) (by decide) (by decide)
    (by decide)).2 (by decide)

/-- C5 counterexample: the input `cxOrder` passes rules 1-7, violates the
spec's rule 8 (vertex 3 is incident to no edge, so the connectivity view is
not a single component spanning every vertex) and the spec's rule 9 (the
enabled edges form a triangle); the earliest violated rule is 8, yet
construction raises `GraphCycleError` — the rule-9 error — because the
connectivity check never sees the isolated vertex. -/
theorem validation_order_counterexample :
    rule1 cxOrder = false ∧ rule2 cxOrder = false ∧ rule3 cxOrder = false ∧
    rule4 cxOrder = false ∧ rule5 cxOrder = false ∧ rule6 cxOrder = false ∧
    rule7 cxOrder = false ∧
    IsolatedVertex cxOrder 3 ∧ ¬ ConnViewSingleComponent cxOrder ∧
    HasCycleMulti (activePairs cxOrder) ∧
    GraphProcessor.init cxOrder = .error .graphCycle ∧
    GraphProcessor.init cxOrder ≠ .error .graphNotFullyConnected := by
  exact ⟨by decide, by decide, by decide, by decide, by decide, by decide,
    by decide, by decide, by decide, ⟨[0, 1, 2], [0, 1, 2], by decide⟩,
    by decide, by decide⟩

/-- C5 as amended: construction checks the rules in the claimed order and
stops at the first violated one, where rule 8 is read as the source
implements it — the connectivity view contains only vertices incident to at
least one edge, an input whose edge list builds an empty graph fails between
rules 7 and 8 with the undocumented `NetworkXPointlessConcept` library
error, and rule 9 is checked on the simple graph that collapses parallel
enabled edges. -/
theorem validation_first_violation_order (inp : GPInput) :
    (rule1 inp = true → GraphProcessor.init inp = .error .idNotUnique) ∧
    (rule1 inp = false → rule2 inp = true →
      GraphProcessor.init inp = .error .idNotUnique) ∧
    (rule1 inp = false → rule2 inp = false → rule3 inp = true →
      GraphProcessor.init inp = .error .idNotUnique) ∧
    (rule1 inp = false → rule2 inp = false → rule3 inp = false →
      rule4 inp = true →
      GraphProcessor.init inp = .error .inputLengthDoesNotMatch) ∧
    (rule1 inp = false → rule2 inp = false → rule3 inp = false →
      rule4 inp = false → rule5 inp = true →
      GraphProcessor.init inp =
        .error (.idNotFound
          (findMissingEndpoint inp.vertex_ids inp.edge_vertex_id_pairs))) ∧
    (rule1 inp = false → rule2 inp = false → rule3 inp = false →
      rule4 inp = false → rule5 inp = false → rule6 inp = true →
      GraphProcessor.init inp = .error .inputLengthDoesNotMatch) ∧
    (rule1 inp = false → rule2 inp = false → rule3 inp = false →
      rule4 inp = false → rule5 inp = false → rule6 inp = false →
      rule7 inp = true →
      GraphProcessor.init inp = .error (.idNotFound none)) ∧
    (rule1 inp = false → rule2 inp = false → rule3 inp = false →
      rule4 inp = false → rule5 inp = false → rule6 inp = false →
      rule7 inp = false → ruleNullGraph inp = true →
      GraphProcessor.init inp = .error .networkXPointlessConcept) ∧
    (rule1 inp = false → rule2 inp = false → rule3 inp = false →
      rule4 inp = false → rule5 inp = false → rule6 inp = false →
      rule7 inp = false → ruleNullGraph inp = false → rule8 inp = true →
      GraphProcessor.init inp = .error .graphNotFullyConnected) ∧
    (rule1 inp = false → rule2 inp = false → rule3 inp = false →
      rule4 inp = false → rule5 inp = false → rule6 inp = false →
      rule7 inp = false → ruleNullGraph inp = false → rule8 inp = false →
      rule9 inp = true →
      GraphProcessor.init inp = .error .graphCycle) ∧
    (rule1 inp = false → rule2 inp = false → rule3 inp = false →
      rule4 inp = false → rule5 inp = false → rule6 inp = false →
      rule7 inp = false → ruleNullGraph inp = false → rule8 inp = false →
      rule9 inp = false →
      GraphProcessor.init inp =
        .ok ⟨inp.vertex_ids, inp.edge_ids, inp.edge_vertex_id_pairs,
             inp.edge_enabled, inp.source_vertex_id⟩) :=
  initCases inp

/-- Witness for the amended C5 at `cxDupVertex`, which violates rule 2
(duplicate vertex id) and rule 7 (invalid source id): the rule-2 error is
the one raised. -/
theorem validation_first_violation_order_witness :
    GraphProcessor.init cxDupVertex = .error .idNotUnique :=
  (validation_first_violation_order cxDupVertex).2.1 (by decide) (by decide)

/-- C8: when rules 1-4 pass and some edge endpoint is not a vertex id,
construction raises `IDNotFoundError` reporting the offending id: the id in
the error is an endpoint of some input pair and is not in the vertex set. -/
theorem init_endpoint_not_found_reports_id (inp : GPInput)
    (h1 : rule1 inp = false) (h2 : rule2 inp = false) (h3 : rule3 inp = false)
    (h4 : rule4 inp = false) (h5 : rule5 inp = true) :
    ∃ x, findMissingEndpoint inp.vertex_ids inp.edge_vertex_id_pairs = some x ∧
      GraphProcessor.init inp = .error (.idNotFound (some x)) ∧
      x ∉ inp.vertex_ids ∧
      ∃ p ∈ inp.edge_vertex_id_pairs, p.1 = x ∨ p.2 = x := by
  obtain ⟨x, hx⟩ := Option.isSome_iff_exists.mp (by simpa [rule5] using h5)
  obtain ⟨hnot, hp⟩ := findMissingEndpoint_spec _ _ _ hx
  refine ⟨x, hx, ?_, hnot, hp⟩
  rw [(initCases inp).2.2.2.2.1 h1 h2 h3 h4 h5, hx]

/-- An input whose single edge references the unknown vertex id 7. -/
def cxMissing : GPInput := ⟨[0, 1], [10], [(0, 7)], [true], 0⟩

/-- Witness for C8 at `cxMissing`: the raised error carries the missing
id 7. -/
theorem init_endpoint_not_found_reports_id_witness :
    GraphProcessor.init cxMissing = .error (.idNotFound (some 7)) := by
  obtain ⟨x, hx, hinit, -, -⟩ :=
    init_endpoint_not_found_reports_id cxMissing (by decide) (by decide)
      (by decide) (by decide) (by decide)
  have h7 : (some (7 : Int) : Option Int) = some x :=
    (by decide : findMissingEndpoint cxMissing.vertex_ids
        cxMissing.edge_vertex_id_pairs = some 7).symm.trans hx
  injection h7 with h7
  subst h7
  exact hinit

/-- C9: constructing with an empty edge list never yields a processor —
for every such input construction fails — and on the trivially connected
one-vertex example `cxEmpty` the connectivity check runs on a graph with no
nodes and the failure is the `NetworkXPointlessConcept` library exception,
which is none of the six documented validation error classes. -/
theorem init_empty_edge_list_fails :
    (∀ inp : GPInput, inp.edge_ids = [] → ∀ g : GraphProcessor,
      GraphProcessor.init inp ≠ .ok g) ∧
    nxNodes (connGraph cxEmpty) = [] ∧
    GraphProcessor.init cxEmpty = .error .networkXPointlessConcept := by
  refine ⟨?_, by decide, by decide⟩
  intro inp he g hok
  obtain ⟨-, -, -, -, -, -, -, -, h4, -, -, -, hng, -, -⟩ :=
    init_ok_inv inp g hok
  have hp : inp.edge_vertex_id_pairs = [] := by
    have hlen : inp.edge_ids.length = inp.edge_vertex_id_pairs.length := by
      simpa [rule4] using h4
    rw [he] at hlen
    exact List.length_eq_zero.mp hlen.symm
  have hng' : ruleNullGraph inp = true := by
    unfold ruleNullGraph connGraph
    rw [hp]
    rfl
  rw [hng'] at hng
  exact Bool.noConfusion hng

/-- Witness for C9 at the one-vertex, no-edge input. -/
theorem init_empty_edge_list_fails_witness :
    GraphProcessor.init cxEmpty ≠ .ok ⟨[0], [], [], [], 0⟩ :=
  init_empty_edge_list_fails.1 cxEmpty rfl ⟨[0], [], [], [], 0⟩

/-- In a validly constructed processor, looking the edge table up by an id
that sits at index `i` of the id column finds exactly that row: its
endpoint pair and its enabled flag. -/
theorem rows_find_at (inp : GPInput) (g : GraphProcessor) (i : Nat)
    (eid : Int) (b : Bool) (hg : GraphProcessor.init inp = .ok g)
    (hid : g.edge_ids[i]? = some eid) (hflag : g.edge_enabled[i]? = some b) :
    ∃ u v, g.rows.find? (fun r => r.1 == eid) = some (eid, (u, v), b) := by
  obtain ⟨hv, he, hp, hen, hs, r1, r2, r3, r4, r5, r6, r7, rng, r8, r9⟩ :=
    init_ok_inv inp g hg
  have hnd : g.edge_ids.Nodup := by
    refine nodup_of_dedup_length _ ?_
    rw [he]
    simpa [rule3] using r3
  have hlen4 : g.edge_ids.length = g.edge_vertex_id_pairs.length := by
    rw [he, hp]
    simpa [rule4] using r4
  have hi : i < g.edge_ids.length := (List.getElem?_eq_some.mp hid).1
  have hip : i < g.edge_vertex_id_pairs.length := hlen4 ▸ hi
  refine ⟨(g.edge_vertex_id_pairs.get ⟨i, hip⟩).1,
    (g.edge_vertex_id_pairs.get ⟨i, hip⟩).2, ?_⟩
  have hpq : g.edge_vertex_id_pairs[i]? =
      some ((g.edge_vertex_id_pairs.get ⟨i, hip⟩).1,
        (g.edge_vertex_id_pairs.get ⟨i, hip⟩).2) := by
    rw [Prod.mk.eta, List.get_eq_getElem]
    exact List.getElem?_eq_getElem hip
  have hb : (g.edge_vertex_id_pairs.zip g.edge_enabled)[i]? =
      some (((g.edge_vertex_id_pairs.get ⟨i, hip⟩).1,
        (g.edge_vertex_id_pairs.get ⟨i, hip⟩).2), b) := by
    rw [List.getElem?_zip_eq_some]
    exact ⟨hpq, hflag⟩
  exact find_zip_at g.edge_ids _ i eid _ hnd hid hb

/-- C2: in a validly constructed processor, `find_downstream_vertices` on
an edge id present in the edge set whose enabled flag is false returns the
empty sequence. -/
theorem find_downstream_vertices_disabled_empty (inp : GPInput)
    (g : GraphProcessor) (eid : Int) (i : Nat)
    (hg : GraphProcessor.init inp = .ok g)
    (hid : g.edge_ids[i]? = some eid)
    (hflag : g.edge_enabled[i]? = some false) :
    g.find_downstream_vertices eid = .ok [] := by
  obtain ⟨u, v, hfind⟩ := rows_find_at inp g i eid false hg hid hflag
  unfold GraphProcessor.find_downstream_vertices
  rw [hfind]
  rfl

/-- Witness for C2 at the worked example: edge 7 is disabled (index 3 of
the edge table). -/
theorem find_downstream_vertices_disabled_empty_witness :
    exWorkedG.find_downstream_vertices 7 = .ok [] :=
  find_downstream_vertices_disabled_empty exWorked exWorkedG 7 3 (by decide)
    (by decide) (by decide)

/-- C6: in a validly constructed processor, `find_alternative_edges` raises
`IDNotFoundError` on an id not in the edge set, raises
`EdgeAlreadyDisabledError` on an edge whose enabled flag is false, and in
all other cases returns a sequence without raising. -/
theorem find_alternative_edges_guard_errors (inp : GPInput)
    (g : GraphProcessor) (eid : Int)
    (hg : GraphProcessor.init inp = .ok g) :
    (eid ∉ g.edge_ids →
      g.find_alternative_edges eid = .error (.idNotFound eid)) ∧
    (∀ i : Nat, g.edge_ids[i]? = some eid → g.edge_enabled[i]? = some false →
      g.find_alternative_edges eid = .error .edgeAlreadyDisabled) ∧
    (∀ i : Nat, g.edge_ids[i]? = some eid → g.edge_enabled[i]? = some true →
      ∃ l, g.find_alternative_edges eid = .ok l) := by
  refine ⟨?_, ?_, ?_⟩
  · intro hmem
    unfold GraphProcessor.find_alternative_edges GraphProcessor.rows
    rw [find_zip_none _ _ _ hmem]
  · intro i hid hflag
    obtain ⟨u, v, hfind⟩ := rows_find_at inp g i eid false hg hid hflag
    unfold GraphProcessor.find_alternative_edges
    rw [hfind]
    rfl
  · intro i hid hflag
    obtain ⟨u, v, hfind⟩ := rows_find_at inp g i eid true hg hid hflag
    exact ⟨_, by unfold GraphProcessor.find_alternative_edges; rw [hfind]; rfl⟩

/-- Witness for C6 at the worked example: id 99 is no edge, edge 7 (index
3) is disabled. -/
theorem find_alternative_edges_guard_errors_witness :
    exWorkedG.find_alternative_edges 99 = .error (.idNotFound 99) ∧
    exWorkedG.find_alternative_edges 7 = .error .edgeAlreadyDisabled :=
  ⟨(find_alternative_edges_guard_errors exWorked exWorkedG 99
      (by decide)).1 (by decide),
   (find_alternative_edges_guard_errors exWorked exWorkedG 7
      (by decide)).2.1 3 (by decide) (by decide)⟩

/-- C10: the N-1 wrapper validates its line id itself before querying the
topology core: an id not among the edge ids raises `InvalidLineIDError` and
an id whose edge is disabled raises `LineNotConnectedError`, so in these two
conditions no error of the core (`IDNotFoundError`,
`EdgeAlreadyDisabledError`) is the one surfaced. -/
theorem n_1_calculation_revalidates (inp : GPInput) (g : GraphProcessor)
    (line : Int) (hg : GraphProcessor.init inp = .ok g) :
    (line ∉ g.edge_ids →
      n_1_calc.n_1_calculation g line = .error .invalidLineID ∧
      ∀ e : QueryError,
        n_1_calc.n_1_calculation g line ≠ .error (.core e)) ∧
    (∀ i : Nat, g.edge_ids[i]? = some line → g.edge_enabled[i]? = some false →
      n_1_calc.n_1_calculation g line = .error .lineNotConnected ∧
      ∀ e : QueryError,
        n_1_calc.n_1_calculation g line ≠ .error (.core e)) := by
  constructor
  · intro hmem
    have hc : g.edge_ids.contains line = false := by simpa using hmem
    have h : n_1_calc.n_1_calculation g line = .error .invalidLineID := by
      unfold n_1_calc.n_1_calculation
      rw [hc]
      rfl
    refine ⟨h, fun e he => ?_⟩
    rw [h] at he
    exact N1Error.noConfusion (Except.error.inj he)
  · intro i hid hflag
    obtain ⟨hv, he, hp, hen, hs, r1, r2, r3, r4, r5, r6, r7, rng, r8, r9⟩ :=
      init_ok_inv inp g hg
    have hnd : g.edge_ids.Nodup := by
      refine nodup_of_dedup_length _ ?_
      rw [he]
      simpa [rule3] using r3
    have hidx : g.edge_ids.findIdx (fun y => y == line) = i :=
      findIdx_of_getElem _ _ _ hnd hid
    have hc : g.edge_ids.contains line = true := by
      simpa using List.getElem?_mem hid
    have h : n_1_calc.n_1_calculation g line = .error .lineNotConnected := by
      unfold n_1_calc.n_1_calculation
      rw [hc, hidx, hflag]
      rfl
    refine ⟨h, fun e he => ?_⟩
    rw [h] at he
    exact N1Error.noConfusion (Except.error.inj he)

/-- Witness for C10 at the worked example: id 99 is no line, line 7 (index
3) is disconnected. -/
theorem n_1_calculation_revalidates_witness :
    n_1_calc.n_1_calculation exWorkedG 99 = .error .invalidLineID ∧
    n_1_calc.n_1_calculation exWorkedG 7 = .error .lineNotConnected :=
  ⟨((n_1_calculation_revalidates exWorked exWorkedG 99
      (by decide)).1 (by decide)).1,
   ((n_1_calculation_revalidates exWorked exWorkedG 7
      (by decide)).2 3 (by decide) (by decide)).1⟩
